import Mathlib

/-!
Formal model of the royalty-transaction core of the `cursortest` repository.

The embedding follows the JavaScript source:
* `src/unnamed/part_000` — the `Music` model (`calculateRoyalty`,
  `isAvailableForBusiness`, analytics counters);
* `src/server/models/RoyaltyTransaction.js` — the `RoyaltyTransaction`
  schema, `isPaymentOverdue`, `getPendingLMKReports`;
* `src/server/routes/music.js` — `POST /play` (record a play, compute the
  distribution, save, then bump analytics), `POST /process-payment`
  (filter the pending transactions of the request, mark them `processing`,
  append a `payment_initiated` audit entry, then schedule a deferred
  completion), and the deferred `setTimeout` body (an `updateMany` over the
  *full* request id list — with no status condition — that sets the payment
  status to `completed`, the reporting status to `reported`, and appends a
  `payment_completed` audit entry).

JavaScript numbers are modelled over `ℚ` (all rates and percentages in the
source are exact decimals); timestamps are modelled as integers
(milliseconds since the epoch, as produced by `Date.now()`); Mongo document
ids are modelled as natural numbers, and each collection as an association
list keyed by id.  The fields of the schema that are pure pass-through data
never read by any route (location and device snapshots, billing period,
metadata) are not carried.
-/

namespace Cursortest

/-- Payment status enum of `paymentInfo.status`
(`src/server/models/RoyaltyTransaction.js`, lines 112-116). -/
inductive PaymentStatus
  | pending
  | processing
  | completed
  | failed
  | disputed
  | refunded
  deriving DecidableEq

/-- Reporting status enum of `lmkCompliance.reportingStatus`
(`src/server/models/RoyaltyTransaction.js`, lines 100-104). -/
inductive ReportingStatus
  | pending
  | reported
  | confirmed
  | disputed
  deriving DecidableEq

/-- Royalty rate configuration `lmkInfo.royaltyRate` of a work. -/
structure RoyaltyRate where
  mechanical : ℚ
  performance : ℚ
  synchronization : ℚ
  deriving DecidableEq

/-- A rights holder entry of `lmkInfo.publishers` / `composers` /
`lyricists` on the `Music` model. -/
structure Stakeholder where
  lmkMemberNumber : String
  name : String
  sharePercentage : ℚ
  deriving DecidableEq

/-- An `{amount, percentage}` pair of the distribution breakdown. -/
structure ShareAmount where
  amount : ℚ
  percentage : ℚ
  deriving DecidableEq

/-- A per-payee entry of the distribution breakdown. -/
structure PayeeAmount where
  lmkMemberNumber : String
  name : String
  amount : ℚ
  percentage : ℚ
  deriving DecidableEq

/-- The distribution breakdown `royaltyInfo.distribution`. -/
structure Distribution where
  artist : ShareAmount
  publishers : List PayeeAmount
  composers : List PayeeAmount
  lyricists : List PayeeAmount
  lmkFee : ShareAmount
  platformFee : ShareAmount
  deriving DecidableEq

/-- An entry of the append-only audit trail
`verification.auditTrail` (`RoyaltyTransaction.js`, lines 155-166). -/
structure AuditEntry where
  action : String
  performedBy : Nat
  timestamp : ℤ
  details : String
  deriving DecidableEq

/-- The `RoyaltyTransaction` document, restricted to the fields the routes
read or write (`src/server/models/RoyaltyTransaction.js`). -/
structure RoyaltyTxn where
  music : Nat
  business : Nat
  artist : Nat
  playType : String
  playDate : ℤ
  baseRate : ℚ
  calculatedAmount : ℚ
  currency : String
  distribution : Distribution
  reportingStatus : ReportingStatus
  reportedToLMK : Option ℤ
  paymentStatus : PaymentStatus
  paymentDate : Option ℤ
  paymentMethod : Option String
  paymentTransactionId : Option String
  auditTrail : List AuditEntry
  deriving DecidableEq

/-- Play analytics counters `analytics` on the `Music` model. -/
structure MusicAnalytics where
  totalPlays : Nat
  businessPlays : Nat
  lastPlayed : Option ℤ
  deriving DecidableEq

/-- The `Music` document, restricted to the fields the royalty core reads
(`src/unnamed/part_000`). -/
structure Music where
  isActive : Bool
  status : String
  complianceStatus : String
  allowedBusinessTypes : List String
  royaltyRate : RoyaltyRate
  publishers : List Stakeholder
  composers : List Stakeholder
  lyricists : List Stakeholder
  artist : Nat
  analytics : MusicAnalytics
  deriving DecidableEq

/-- `musicSchema.methods.calculateRoyalty` (`src/unnamed/part_000`,
lines 416-427): a switch on the play type selecting one of the three unit
rates, defaulting to the mechanical rate. -/
def calculateRoyalty (m : Music) (playType : String) : ℚ :=
  if playType = "commercial" then m.royaltyRate.synchronization
  else if playType = "performance" then m.royaltyRate.performance
  else m.royaltyRate.mechanical

/-- `musicSchema.methods.isAvailableForBusiness` (`src/unnamed/part_000`,
lines 407-413). -/
def isAvailableForBusiness (m : Music) (businessType : String) : Bool :=
  if !m.isActive || decide (m.status ≠ "published") then false
  else if m.complianceStatus ≠ "approved" then false
  else m.allowedBusinessTypes.isEmpty || m.allowedBusinessTypes.contains businessType

/-- The distribution computed by `POST /play`
(`src/server/routes/music.js`, lines 552-583): 70% of the amount to the
artist, each publisher scaled by its own share percentage times 15%, each
composer times 10%, each lyricist times 5%, a 5% LMK fee and a 10%
platform fee.  No normalization across payees is performed. -/
def computeDistribution (calculatedAmount : ℚ)
    (publishers composers lyricists : List Stakeholder) : Distribution :=
  { artist := { amount := calculatedAmount * (7 / 10), percentage := 70 }
    publishers := publishers.map fun pub =>
      { lmkMemberNumber := pub.lmkMemberNumber
        name := pub.name
        amount := calculatedAmount * (pub.sharePercentage / 100) * (15 / 100)
        percentage := pub.sharePercentage }
    composers := composers.map fun comp =>
      { lmkMemberNumber := comp.lmkMemberNumber
        name := comp.name
        amount := calculatedAmount * (comp.sharePercentage / 100) * (1 / 10)
        percentage := comp.sharePercentage }
    lyricists := lyricists.map fun lyr =>
      { lmkMemberNumber := lyr.lmkMemberNumber
        name := lyr.name
        amount := calculatedAmount * (lyr.sharePercentage / 100) * (5 / 100)
        percentage := lyr.sharePercentage }
    lmkFee := { amount := calculatedAmount * (5 / 100), percentage := 5 }
    platformFee := { amount := calculatedAmount * (1 / 10), percentage := 10 } }

/-- Sum of the amounts of a payee list. -/
def payeeTotal (l : List PayeeAmount) : ℚ :=
  (l.map fun p => p.amount).sum

/-- Grand total disbursed by a distribution: every payee bucket plus both
fees (the quantity the spec scenarios compare against `calculatedAmount`). -/
def totalDisbursed (d : Distribution) : ℚ :=
  d.artist.amount + payeeTotal d.publishers + payeeTotal d.composers +
    payeeTotal d.lyricists + d.lmkFee.amount + d.platformFee.amount

/-- `royaltyTransactionSchema.methods.isPaymentOverdue`
(`src/server/models/RoyaltyTransaction.js`, lines 243-248): false for a
completed payment, otherwise true when `daysSincePlay`, the elapsed
milliseconds divided by the milliseconds of a day, strictly exceeds 30. -/
def isPaymentOverdue (t : RoyaltyTxn) (now : ℤ) : Bool :=
  if t.paymentStatus = PaymentStatus.completed then false
  else
    decide (((now - t.playDate : ℤ) : ℚ) / (1000 * 60 * 60 * 24) > 30)

/-- The persistent state the royalty routes touch: the `Music` collection,
the `RoyaltyTransaction` collection (each an association list keyed by
document id), and the id lists captured by `setTimeout` closures of
`POST /process-payment` whose deferred completion has not yet fired. -/
structure SysState where
  musics : List (Nat × Music)
  ledger : List (Nat × RoyaltyTxn)
  scheduled : List (List Nat)
  deriving DecidableEq

/-- Response body of `POST /play` (`src/server/routes/music.js`,
lines 632-641). -/
structure PlayResult where
  txid : Nat
  calculatedAmount : ℚ
  currency : String
  playType : String
  reportingStatus : ReportingStatus
  deriving DecidableEq

/-- Response body of `POST /process-payment`
(`src/server/routes/music.js`, lines 941-946). -/
structure InitResult where
  processedCount : Nat
  totalAmount : ℚ
  currency : String
  deriving DecidableEq

/-- The `RoyaltyTransaction` document built by `POST /play`
(`src/server/routes/music.js`, lines 547-617): the base rate is selected by
play type, `calculatedAmount` equals the base rate, the distribution is
computed from the work's stakeholder lists, both state machines start
`pending`, and the audit trail starts empty. -/
def newTransaction (musicId businessId : Nat) (m : Music) (playType : Option String)
    (now : ℤ) : RoyaltyTxn :=
  let pt := playType.getD ("background")
  let baseRate := calculateRoyalty m pt
  { music := musicId
    business := businessId
    artist := m.artist
    playType := pt
    playDate := now
    baseRate := baseRate
    calculatedAmount := baseRate
    currency := "IDR"
    distribution := computeDistribution baseRate m.publishers m.composers m.lyricists
    reportingStatus := ReportingStatus.pending
    reportedToLMK := none
    paymentStatus := PaymentStatus.pending
    paymentDate := none
    paymentMethod := none
    paymentTransactionId := none
    auditTrail := [] }

/-- The `$inc`/`$set` analytics update issued by `POST /play` after a
successful save (`src/server/routes/music.js`, lines 622-630). -/
def bumpAnalytics (now : ℤ) (m : Music) : Music :=
  { m with analytics :=
    { totalPlays := m.analytics.totalPlays + 1
      businessPlays := m.analytics.businessPlays + 1
      lastPlayed := some now } }

/-- `POST /play` (`src/server/routes/music.js`, lines 511-650).  Looks up
the work (404 when absent), rejects a work not available for the caller's
business type (403), then saves the new transaction and — only after the
save has succeeded — increments the work's play counters.  `saveOk` models
whether `royaltyTransaction.save()` succeeds; a failed save is caught and
answered with a 500 before the analytics update runs, so the state is left
untouched.  `txid` is the fresh document id Mongo assigns to the insert. -/
def recordPlay (s : SysState) (musicId businessId : Nat) (businessType : String)
    (playType : Option String) (now : ℤ) (txid : Nat) (saveOk : Bool) :
    SysState × Option PlayResult :=
  match s.musics.lookup musicId with
  | none => (s, none)
  | some m =>
    if !isAvailableForBusiness m businessType then (s, none)
    else if !saveOk then (s, none)
    else
      let t := newTransaction musicId businessId m playType now
      let nextState : SysState :=
        { s with
          ledger := (txid, t) :: s.ledger
          musics := s.musics.map fun p =>
            (p.1, if p.1 = musicId then bumpAnalytics now p.2 else p.2) }
      (nextState,
        some { txid := txid
               calculatedAmount := t.calculatedAmount
               currency := "IDR"
               playType := t.playType
               reportingStatus := t.reportingStatus })

/-- The per-transaction update of the `bulkWrite` issued by
`POST /process-payment` for each transaction found `pending`
(`src/server/routes/music.js`, lines 886-910): status `processing`, payment
date and method, a fresh external transaction id, and a
`payment_initiated` audit entry. -/
def initiateTxnUpdate (method : String) (admin : Nat) (now : ℤ) (i : Nat)
    (t : RoyaltyTxn) : RoyaltyTxn :=
  { t with
    paymentStatus := PaymentStatus.processing
    paymentDate := some now
    paymentMethod := some method
    paymentTransactionId := some ("PAY_" ++ toString now ++ "_" ++ toString i)
    auditTrail := t.auditTrail ++
      [{ action := "payment_initiated"
         performedBy := admin
         timestamp := now
         details := "Payment processing initiated for " ++
           toString t.calculatedAmount ++ " IDR" }] }

/-- Ledger entry transformer of `POST /process-payment`: only the
transactions of the request list whose status is currently `pending` are
touched (those are exactly the documents returned by the
`find({_id: {$in: transactionIds}, 'paymentInfo.status': 'pending'})` of
line 871 and addressed by the `bulkWrite`). -/
def initiateEntry (ids : List Nat) (method : String) (admin : Nat) (now : ℤ)
    (i : Nat) (t : RoyaltyTxn) : RoyaltyTxn :=
  if i ∈ ids ∧ t.paymentStatus = PaymentStatus.pending
  then initiateTxnUpdate method admin now i t else t

/-- `POST /process-payment`, synchronous part
(`src/server/routes/music.js`, lines 860-955): select the transactions of
the request whose status is `pending`; when none is found answer 404 and
schedule nothing; otherwise transition exactly those to `processing`,
schedule the deferred completion over the *full* request id list (the
`setTimeout` closure captures `transactionIds`, not the filtered list),
and answer with the count of and total amount over the pending ones. -/
def processPayment (s : SysState) (transactionIds : List Nat) (paymentMethod : String)
    (admin : Nat) (now : ℤ) : SysState × Option InitResult :=
  let transactions := s.ledger.filter fun p =>
    decide (p.1 ∈ transactionIds ∧ p.2.paymentStatus = PaymentStatus.pending)
  if transactions.isEmpty then (s, none)
  else
    let totalAmount := (transactions.map fun p => p.2.calculatedAmount).sum
    ({ s with
        ledger := s.ledger.map fun p =>
          (p.1, initiateEntry transactionIds paymentMethod admin now p.1 p.2)
        scheduled := transactionIds :: s.scheduled },
      some { processedCount := transactions.length
             totalAmount := totalAmount
             currency := "IDR" })

/-- The `$set`/`$push` applied by the deferred `updateMany` of
`POST /process-payment` (`src/server/routes/music.js`, lines 918-935):
payment status `completed`, reporting status `reported`, a `reportedToLMK`
timestamp, and a `payment_completed` audit entry. -/
def completeTxnUpdate (admin : Nat) (now : ℤ) (t : RoyaltyTxn) : RoyaltyTxn :=
  { t with
    paymentStatus := PaymentStatus.completed
    reportingStatus := ReportingStatus.reported
    reportedToLMK := some now
    auditTrail := t.auditTrail ++
      [{ action := "payment_completed"
         performedBy := admin
         timestamp := now
         details := "Payment completed and reported to LMK" }] }

/-- Ledger entry transformer of the deferred completion step: every entry
of the captured id list is rewritten, with no condition on its current
status (the `updateMany` filter of line 919 is `{_id: {$in: transactionIds}}`
alone). -/
def completeEntry (ids : List Nat) (admin : Nat) (now : ℤ) (i : Nat)
    (t : RoyaltyTxn) : RoyaltyTxn :=
  if i ∈ ids then completeTxnUpdate admin now t else t

/-- The deferred completion step of `POST /process-payment`
(`src/server/routes/music.js`, lines 916-939): an `updateMany` whose filter
is `{ _id: { $in: transactionIds } }` — it carries *no* condition on the
current payment status, so every existing transaction of the captured id
list is updated, whatever its status.  The fired `setTimeout` closure is
consumed from the schedule. -/
def completePayment (s : SysState) (transactionIds : List Nat) (admin : Nat)
    (now : ℤ) : SysState :=
  { s with
    ledger := s.ledger.map fun p =>
      (p.1, completeEntry transactionIds admin now p.1 p.2)
    scheduled := s.scheduled.erase transactionIds }

/-- `royaltyTransactionSchema.statics.getPendingLMKReports`
(`src/server/models/RoyaltyTransaction.js`, lines 289-294): the
transactions with reporting status `pending` and payment status
`completed`. -/
def getPendingLMKReports (s : SysState) : List (Nat × RoyaltyTxn) :=
  s.ledger.filter fun p =>
    decide (p.2.reportingStatus = ReportingStatus.pending ∧
      p.2.paymentStatus = PaymentStatus.completed)

/-- One step of the royalty core: a recorded play, a payment initiation, or
a scheduled deferred completion firing.  A play step inserts under a fresh
document id (Mongo `_id`s are unique); a completion step fires only a
closure the schedule holds. -/
inductive Step : SysState → SysState → Prop
  | play (s : SysState) (musicId businessId : Nat) (businessType : String)
      (playType : Option String) (now : ℤ) (txid : Nat) (saveOk : Bool)
      (hfresh : s.ledger.lookup txid = none) :
      Step s (recordPlay s musicId businessId businessType playType now txid saveOk).1
  | initiate (s : SysState) (ids : List Nat) (method : String) (admin : Nat) (now : ℤ) :
      Step s (processPayment s ids method admin now).1
  | complete (s : SysState) (ids : List Nat) (admin : Nat) (now : ℤ)
      (hsch : ids ∈ s.scheduled) :
      Step s (completePayment s ids admin now)

/-- States reachable from an empty ledger (the `Music` catalog is external
read-mostly data and may start arbitrary). -/
inductive Reachable : SysState → Prop
  | init (musics : List (Nat × Music)) : Reachable ⟨musics, [], []⟩
  | step {s t : SysState} : Reachable s → Step s t → Reachable t

/-! Concrete scenario used to instantiate the theorems: one approved work
with two publishers at 50% each and a synchronization rate of 5000, played
commercially by business 20, then paid out by admin 99. -/

/-- A published, approved, unrestricted work: synchronization rate 5000,
two publishers at 50% each, no composers or lyricists. -/
def demoMusic : Music :=
  { isActive := true
    status := "published"
    complianceStatus := "approved"
    allowedBusinessTypes := []
    royaltyRate := { mechanical := 1000, performance := 2000, synchronization := 5000 }
    publishers := [{ lmkMemberNumber := "P1", name := "Pub A", sharePercentage := 50 },
                   { lmkMemberNumber := "P2", name := "Pub B", sharePercentage := 50 }]
    composers := []
    lyricists := []
    artist := 7
    analytics := { totalPlays := 0, businessPlays := 0, lastPlayed := none } }

/-- Initial state: the work under id 10, empty ledger, nothing scheduled. -/
def demoS0 : SysState := ⟨[(10, demoMusic)], [], []⟩

/-- The transaction `POST /play` creates for a commercial play of the demo
work at time 0. -/
def demoTx1 : RoyaltyTxn := newTransaction 10 20 demoMusic (some ("commercial")) 0

/-- After recording a commercial play as transaction 1. -/
def demoS1 : SysState := (recordPlay demoS0 10 20 "cafe" (some ("commercial")) 0 1 true).1

/-- After initiating payment of transaction 1 at time 5. -/
def demoS2 : SysState := (processPayment demoS1 [1] "bank_transfer" 99 5).1

/-- After the deferred completion of the `[1]` batch fires at time 10. -/
def demoS3 : SysState := completePayment demoS2 [1] 99 10

/-- After recording a second commercial play as transaction 2 at time 20. -/
def demoS4 : SysState := (recordPlay demoS3 10 20 "cafe" (some ("commercial")) 20 2 true).1

/-- After initiating payment over `[1, 2]` at time 25: transaction 1 is
already `completed`, so only transaction 2 enters the batch, but the full
list `[1, 2]` is captured for the deferred completion. -/
def demoS5 : SysState := (processPayment demoS4 [1, 2] "bank_transfer" 99 25).1

/-- After the deferred completion of the `[1, 2]` batch fires at time 30:
it also rewrites the long-completed transaction 1. -/
def demoS6 : SysState := completePayment demoS5 [1, 2] 99 30

/-- The overallocation variant of the demo work: the same rates but two
publishers, each with a share percentage of 100. -/
def demoMusicOver : Music :=
  { demoMusic with
    publishers := [{ lmkMemberNumber := "P1", name := "Pub A", sharePercentage := 100 },
                   { lmkMemberNumber := "P2", name := "Pub B", sharePercentage := 100 }] }

/-- The transaction `POST /play` creates for a commercial play of the
overallocation variant. -/
def demoTxOver : RoyaltyTxn := newTransaction 11 20 demoMusicOver (some ("commercial")) 0

/-- Joint inductive invariant of the payment and compliance state
machines over every ledger entry: the reporting status has left `pending`
only on a transaction whose payment is `completed`, and a `completed`
payment carries reporting status exactly `reported`. -/
def LedgerInv (s : SysState) : Prop :=
  ∀ p ∈ s.ledger,
    (p.2.reportingStatus ≠ ReportingStatus.pending →
      p.2.paymentStatus = PaymentStatus.completed) ∧
    (p.2.paymentStatus = PaymentStatus.completed →
      p.2.reportingStatus = ReportingStatus.reported)

/-- Looking up an id in an id-preserving per-entry rewrite of an
association list rewrites the looked-up value. -/
theorem lookup_map_entry {β : Type} (f : Nat → β → β) (l : List (Nat × β)) (i : Nat) :
    (l.map fun p => (p.1, f p.1 p.2)).lookup i = (l.lookup i).map (f i) := by
  induction l with
  | nil => rfl
  | cons q l ih =>
    by_cases h : i = q.1
    · simp [List.lookup, h]
    · simp [List.lookup, h, ih, beq_false_of_ne h]

/-- A successful lookup is a membership. -/
theorem mem_of_lookup {β : Type} {l : List (Nat × β)} {i : Nat} {t : β}
    (h : l.lookup i = some t) : (i, t) ∈ l := by
  induction l with
  | nil => simp [List.lookup] at h
  | cons q l ih =>
    by_cases hq : i = q.1
    · subst hq
      simp [List.lookup] at h
      rw [← h]
      simp
    · simp [List.lookup, beq_false_of_ne hq] at h
      exact List.mem_cons_of_mem _ (ih h)

/-- Every ledger entry after a `POST /play` is either an old entry or the
freshly created transaction. -/
theorem recordPlay_ledger_mem {s : SysState} {mid bid : Nat} {bt : String}
    {pt : Option String} {now : ℤ} {txid : Nat} {ok : Bool} {p : Nat × RoyaltyTxn}
    (hp : p ∈ (recordPlay s mid bid bt pt now txid ok).1.ledger) :
    p ∈ s.ledger ∨ ∃ m : Music, p = (txid, newTransaction mid bid m pt now) := by
  unfold recordPlay at hp
  split at hp
  · exact Or.inl hp
  · split at hp
    · exact Or.inl hp
    · split at hp
      · exact Or.inl hp
      · rcases List.mem_cons.mp hp with h | h
        · exact Or.inr ⟨_, h⟩
        · exact Or.inl h

/-- Every ledger entry after the synchronous part of
`POST /process-payment` is either an untouched old entry or the initiation
update of an old entry that was `pending`. -/
theorem processPayment_ledger_mem {s : SysState} {ids : List Nat} {method : String}
    {admin : Nat} {now : ℤ} {p : Nat × RoyaltyTxn}
    (hp : p ∈ (processPayment s ids method admin now).1.ledger) :
    p ∈ s.ledger ∨ ∃ q ∈ s.ledger, q.2.paymentStatus = PaymentStatus.pending ∧
      p = (q.1, initiateTxnUpdate method admin now q.1 q.2) := by
  unfold processPayment at hp
  dsimp only at hp
  split at hp
  · exact Or.inl hp
  · simp only [List.mem_map] at hp
    obtain ⟨q, hq, hpq⟩ := hp
    unfold initiateEntry at hpq
    split at hpq
    next hcond => exact Or.inr ⟨q, hq, hcond.2, hpq.symm⟩
    next => exact Or.inl (by rw [← hpq]; simpa using hq)

/-- Every ledger entry after a deferred completion step is either an
untouched old entry or the completion update of an old entry. -/
theorem completePayment_ledger_mem {s : SysState} {ids : List Nat}
    {admin : Nat} {now : ℤ} {p : Nat × RoyaltyTxn}
    (hp : p ∈ (completePayment s ids admin now).ledger) :
    p ∈ s.ledger ∨ ∃ q ∈ s.ledger, p = (q.1, completeTxnUpdate admin now q.2) := by
  unfold completePayment at hp
  simp only [List.mem_map] at hp
  obtain ⟨q, hq, hpq⟩ := hp
  unfold completeEntry at hpq
  split at hpq
  · exact Or.inr ⟨q, hq, hpq.symm⟩
  · exact Or.inl (by rw [← hpq]; simpa using hq)

/-- The joint invariant holds in every reachable state. -/
theorem ledgerInv_reachable {s : SysState} (h : Reachable s) : LedgerInv s := by
  induction h with
  | init musics => intro p hp; simp at hp
  | step _ hstep ih =>
    cases hstep with
    | play mid bid bt pt now txid ok hfresh =>
      intro p hp
      rcases recordPlay_ledger_mem hp with hold | ⟨m, rfl⟩
      · exact ih p hold
      · constructor
        · intro hr
          exact absurd (by simp [newTransaction]) hr
        · intro hc
          simp [newTransaction] at hc
    | initiate ids method admin now =>
      intro p hp
      rcases processPayment_ledger_mem hp with hold | ⟨q, hq, hpend, rfl⟩
      · exact ih p hold
      · constructor
        · intro hr
          exfalso
          have hrq : q.2.reportingStatus ≠ ReportingStatus.pending := by
            simpa [initiateTxnUpdate] using hr
          have hcomp := (ih q hq).1 hrq
          rw [hcomp] at hpend
          exact absurd hpend (by decide)
        · intro hc
          simp [initiateTxnUpdate] at hc
    | complete ids admin now hsch =>
      intro p hp
      rcases completePayment_ledger_mem hp with hold | ⟨q, hq, rfl⟩
      · exact ih p hold
      · exact ⟨fun _ => by simp [completeTxnUpdate], fun _ => by simp [completeTxnUpdate]⟩

/-- The demo initial state is reachable. -/
theorem demoS0_reachable : Reachable demoS0 := Reachable.init [(10, demoMusic)]

/-- The state after the demo play is reachable. -/
theorem demoS1_reachable : Reachable demoS1 :=
  Reachable.step demoS0_reachable
    (Step.play demoS0 10 20 "cafe" (some ("commercial")) 0 1 true rfl)

/-- The state after the demo payment initiation is reachable. -/
theorem demoS2_reachable : Reachable demoS2 :=
  Reachable.step demoS1_reachable (Step.initiate demoS1 [1] "bank_transfer" 99 5)

/-- The state after the demo deferred completion is reachable. -/
theorem demoS3_reachable : Reachable demoS3 :=
  Reachable.step demoS2_reachable (Step.complete demoS2 [1] 99 10 (by decide))

/-- The state after the second demo play is reachable. -/
theorem demoS4_reachable : Reachable demoS4 :=
  Reachable.step demoS3_reachable
    (Step.play demoS3 10 20 "cafe" (some ("commercial")) 20 2 true (by decide))

/-- The state after the second demo initiation (over `[1, 2]`) is
reachable. -/
theorem demoS5_reachable : Reachable demoS5 :=
  Reachable.step demoS4_reachable (Step.initiate demoS4 [1, 2] "bank_transfer" 99 25)

/-- The state after the second demo deferred completion is reachable. -/
theorem demoS6_reachable : Reachable demoS6 :=
  Reachable.step demoS5_reachable (Step.complete demoS5 [1, 2] 99 30 (by decide))

/-- C1: in every reachable state, no ledger entry has a reporting status
in `{reported, confirmed, disputed}` while its payment status is `pending`
or `processing`; the reporting status leaves `pending` only together with
(or after) payment completion. -/
theorem reporting_never_ahead_of_payment {s : SysState} (hs : Reachable s)
    (p : Nat × RoyaltyTxn) (hp : p ∈ s.ledger)
    (hpay : p.2.paymentStatus = PaymentStatus.pending ∨
      p.2.paymentStatus = PaymentStatus.processing) :
    p.2.reportingStatus ≠ ReportingStatus.reported ∧
    p.2.reportingStatus ≠ ReportingStatus.confirmed ∧
    p.2.reportingStatus ≠ ReportingStatus.disputed := by
  have hpending : p.2.reportingStatus = ReportingStatus.pending := by
    by_contra hne
    have hcomp := (ledgerInv_reachable hs p hp).1 hne
    rcases hpay with h | h <;> rw [hcomp] at h <;> exact absurd h (by decide)
  rw [hpending]
  exact ⟨by decide, by decide, by decide⟩

/-- Witness for C1 at the concrete demo run: the freshly recorded
transaction is payment-`pending`, and the theorem yields that its
reporting status is in none of the three advanced states. -/
theorem reporting_never_ahead_of_payment_witness :
    demoS1.ledger.lookup 1 = some demoTx1 ∧
    demoTx1.reportingStatus ≠ ReportingStatus.reported := by
  refine ⟨rfl, ?_⟩
  exact (reporting_never_ahead_of_payment demoS1_reachable (1, demoTx1)
    (mem_of_lookup rfl) (Or.inl (by decide))).1

/-- C10: in every reachable state the pending-reports query of
`getPendingLMKReports` returns the empty list — the only update that makes
a payment `completed` simultaneously sets the reporting status to
`reported`, so no transaction is ever payment-`completed` and
reporting-`pending` at once. -/
theorem getPendingLMKReports_empty {s : SysState} (hs : Reachable s) :
    getPendingLMKReports s = [] := by
  unfold getPendingLMKReports
  rw [List.filter_eq_nil_iff]
  intro p hp
  have h := (ledgerInv_reachable hs p hp).2
  simp only [decide_eq_true_eq, not_and]
  intro hrep hcomp
  rw [h hcomp] at hrep
  exact absurd hrep (by decide)

/-- Witness for C10 at the concrete demo run: after play, initiation and
deferred completion, the regulatory-submission queue is empty. -/
theorem getPendingLMKReports_empty_witness : getPendingLMKReports demoS3 = [] :=
  getPendingLMKReports_empty demoS3_reachable

/-- C9: `isPaymentOverdue` is true exactly when the payment is not
`completed` and strictly more than 30 days (in milliseconds) have passed
since the play date; at exactly the 30-day boundary it is false, and for a
completed payment it is false at every time. -/
theorem isPaymentOverdue_spec (t : RoyaltyTxn) (now : ℤ) :
    (isPaymentOverdue t now = true ↔
      (t.paymentStatus ≠ PaymentStatus.completed ∧
        30 * 24 * 60 * 60 * 1000 < now - t.playDate)) ∧
    (now - t.playDate = 30 * 24 * 60 * 60 * 1000 → isPaymentOverdue t now = false) ∧
    (t.paymentStatus = PaymentStatus.completed → isPaymentOverdue t now = false) := by
  have key : isPaymentOverdue t now = true ↔
      (t.paymentStatus ≠ PaymentStatus.completed ∧
        30 * 24 * 60 * 60 * 1000 < now - t.playDate) := by
    unfold isPaymentOverdue
    by_cases hc : t.paymentStatus = PaymentStatus.completed
    · simp [hc]
    · rw [if_neg hc, decide_eq_true_eq]
      have hnum : (30 : ℚ) * (1000 * 60 * 60 * 24) =
          ((30 * 24 * 60 * 60 * 1000 : ℤ) : ℚ) := by norm_num
      rw [gt_iff_lt, lt_div_iff₀ (by norm_num : (0 : ℚ) < 1000 * 60 * 60 * 24),
        hnum, Int.cast_lt]
      exact ⟨fun h => ⟨hc, h⟩, fun h => h.2⟩
  refine ⟨key, fun hb => ?_, fun hc => ?_⟩
  · rw [Bool.eq_false_iff]
    intro htrue
    have := (key.mp htrue).2
    omega
  · rw [Bool.eq_false_iff]
    intro htrue
    exact absurd hc (key.mp htrue).1

/-- Witness for C9: the demo transaction (play date 0, payment `pending`)
is overdue one millisecond past the 30-day boundary. -/
theorem isPaymentOverdue_spec_witness : isPaymentOverdue demoTx1 2592000001 = true :=
  ((isPaymentOverdue_spec demoTx1 2592000001).1).mpr ⟨by decide, by decide⟩

/-- Case analysis of `POST /play`: either nothing happens and the caller
gets an error (missing work, unavailable work, or failed save), or the
save succeeded and the state gained exactly the new transaction plus the
analytics bump of the played work. -/
theorem recordPlay_cases (s : SysState) (mid bid : Nat) (bt : String)
    (pt : Option String) (now : ℤ) (txid : Nat) (ok : Bool) :
    recordPlay s mid bid bt pt now txid ok = (s, none) ∨
    (ok = true ∧ ∃ m : Music, s.musics.lookup mid = some m ∧
      isAvailableForBusiness m bt = true ∧
      recordPlay s mid bid bt pt now txid ok =
        ({ musics := s.musics.map fun p =>
             (p.1, if p.1 = mid then bumpAnalytics now p.2 else p.2)
           ledger := (txid, newTransaction mid bid m pt now) :: s.ledger
           scheduled := s.scheduled },
          some { txid := txid
                 calculatedAmount := (newTransaction mid bid m pt now).calculatedAmount
                 currency := "IDR"
                 playType := (newTransaction mid bid m pt now).playType
                 reportingStatus := (newTransaction mid bid m pt now).reportingStatus })) := by
  unfold recordPlay
  dsimp only
  split
  · exact Or.inl rfl
  next m hm =>
    split
    · exact Or.inl rfl
    next havail =>
      split
      · exact Or.inl rfl
      next hok =>
        refine Or.inr ⟨?_, m, hm, ?_, rfl⟩
        · revert hok; cases ok <;> simp
        · revert havail; cases isAvailableForBusiness m bt <;> simp

/-- C8: `POST /play` is atomic with respect to its side effects — when the
transaction save fails the whole state is untouched (no ledger record, no
analytics counter change), and the analytics counters change only on a
successful save together with a grown ledger. -/
theorem recordPlay_atomic (s : SysState) (mid bid : Nat) (bt : String)
    (pt : Option String) (now : ℤ) (txid : Nat) :
    recordPlay s mid bid bt pt now txid false = (s, none) ∧
    (∀ ok : Bool, (recordPlay s mid bid bt pt now txid ok).1.musics ≠ s.musics →
      ok = true ∧ (recordPlay s mid bid bt pt now txid ok).1.ledger ≠ s.ledger) := by
  constructor
  · rcases recordPlay_cases s mid bid bt pt now txid false with h | ⟨hok, _⟩
    · exact h
    · exact absurd hok (by decide)
  · intro ok hm
    rcases recordPlay_cases s mid bid bt pt now txid ok with h | ⟨hok, m, hlook, havail, heq⟩
    · rw [h] at hm; exact absurd rfl hm
    · refine ⟨hok, ?_⟩
      rw [heq]
      intro hcontra
      have hlen := congrArg List.length hcontra
      simp at hlen

/-- Witness for C8: in the demo state a failed save leaves everything
unchanged, and a successful save grows the ledger. -/
theorem recordPlay_atomic_witness :
    recordPlay demoS0 10 20 "cafe" (some ("commercial")) 0 1 false = (demoS0, none) ∧
    (recordPlay demoS0 10 20 "cafe" (some ("commercial")) 0 1 true).1.ledger ≠
      demoS0.ledger :=
  ⟨(recordPlay_atomic demoS0 10 20 "cafe" (some ("commercial")) 0 1).1,
   ((recordPlay_atomic demoS0 10 20 "cafe" (some ("commercial")) 0 1).2 true
     (by decide)).2⟩

/-- C4: the base rate — and hence `calculatedAmount`, which equals it with
no further multiplier — is selected by play type: the synchronization rate
for `commercial`, the performance rate for `performance`, and the
mechanical rate for every other play type, including the `background`
default used when the play type is unset. -/
theorem baseRate_selection (m : Music) :
    calculateRoyalty m ("commercial") = m.royaltyRate.synchronization ∧
    calculateRoyalty m ("performance") = m.royaltyRate.performance ∧
    (∀ pt : String, pt ≠ "commercial" → pt ≠ "performance" →
      calculateRoyalty m pt = m.royaltyRate.mechanical) ∧
    (∀ (mid bid : Nat) (pt : Option String) (now : ℤ),
      (newTransaction mid bid m pt now).baseRate =
        calculateRoyalty m (pt.getD ("background")) ∧
      (newTransaction mid bid m pt now).calculatedAmount =
        (newTransaction mid bid m pt now).baseRate) ∧
    (∀ (mid bid : Nat) (now : ℤ),
      (newTransaction mid bid m none now).calculatedAmount =
        m.royaltyRate.mechanical) := by
  refine ⟨?_, ?_, ?_, ?_, ?_⟩
  · unfold calculateRoyalty
    rw [if_pos rfl]
  · unfold calculateRoyalty
    rw [if_neg (by decide), if_pos rfl]
  · intro pt h1 h2
    unfold calculateRoyalty
    rw [if_neg h1, if_neg h2]
  · intro mid bid pt now
    exact ⟨rfl, rfl⟩
  · intro mid bid now
    show calculateRoyalty m ("background") = m.royaltyRate.mechanical
    unfold calculateRoyalty
    rw [if_neg (by decide), if_neg (by decide)]

/-- Witness for C4 at a concrete play type not among the two special
cases. -/
theorem baseRate_selection_witness :
    calculateRoyalty demoMusic ("promotional") = demoMusic.royaltyRate.mechanical :=
  (baseRate_selection demoMusic).2.2.1 "promotional" (by decide) (by decide)

/-- C5, conserved scenario: for the demo work (synchronization rate 5000,
two publishers at 50% each, no composers or lyricists) a commercial play
yields artist 3500, publisher amounts 375 each (750 total), LMK fee 250,
platform fee 500, and the grand total disbursed equals the calculated
amount 5000. -/
theorem conserved_distribution_scenario :
    demoTx1.calculatedAmount = 5000 ∧
    demoTx1.distribution.artist.amount = 3500 ∧
    (demoTx1.distribution.publishers.map fun p => p.amount) = [375, 375] ∧
    payeeTotal demoTx1.distribution.publishers = 750 ∧
    demoTx1.distribution.lmkFee.amount = 250 ∧
    demoTx1.distribution.platformFee.amount = 500 ∧
    totalDisbursed demoTx1.distribution = demoTx1.calculatedAmount := by
  norm_num [demoTx1, newTransaction, calculateRoyalty, demoMusic,
    computeDistribution, totalDisbursed, payeeTotal]

/-- C6, overallocation scenario: with two publishers at 100% each, the
same commercial play yields 750 per publisher (1500 total) and a grand
total disbursed of 5750, strictly above the calculated amount 5000 — the
distribution performs no normalization across payees. -/
theorem overallocation_distribution_scenario :
    demoTxOver.calculatedAmount = 5000 ∧
    (demoTxOver.distribution.publishers.map fun p => p.amount) = [750, 750] ∧
    payeeTotal demoTxOver.distribution.publishers = 1500 ∧
    totalDisbursed demoTxOver.distribution = 5750 ∧
    totalDisbursed demoTxOver.distribution > demoTxOver.calculatedAmount := by
  norm_num [demoTxOver, newTransaction, calculateRoyalty, demoMusicOver, demoMusic,
    computeDistribution, totalDisbursed, payeeTotal]

/-- C3: `POST /process-payment` leaves every transaction whose current
status is not exactly `pending` untouched, and — whenever the batch is
non-empty, so a result is produced — reports as `processedCount` exactly
the number of listed transactions that were `pending` and as `totalAmount`
the sum of their calculated amounts. -/
theorem processPayment_frame_and_counts (s : SysState) (ids : List Nat)
    (method : String) (admin : Nat) (now : ℤ) :
    (∀ (i : Nat) (t : RoyaltyTxn), s.ledger.lookup i = some t →
      t.paymentStatus ≠ PaymentStatus.pending →
      (processPayment s ids method admin now).1.ledger.lookup i = some t) ∧
    ((s.ledger.filter fun p =>
        decide (p.1 ∈ ids ∧ p.2.paymentStatus = PaymentStatus.pending)) ≠ [] →
      (processPayment s ids method admin now).2 = some
        { processedCount := s.ledger.countP fun p =>
            decide (p.1 ∈ ids ∧ p.2.paymentStatus = PaymentStatus.pending)
          totalAmount := ((s.ledger.filter fun p =>
            decide (p.1 ∈ ids ∧ p.2.paymentStatus = PaymentStatus.pending)).map
              fun p => p.2.calculatedAmount).sum
          currency := "IDR" }) := by
  constructor
  · intro i t ht hstat
    unfold processPayment
    dsimp only
    split
    · exact ht
    · rw [lookup_map_entry, ht]
      unfold initiateEntry
      rw [Option.map_some', if_neg]
      rintro ⟨-, hpend⟩
      exact hstat hpend
  · intro hne
    unfold processPayment
    dsimp only
    rw [if_neg (by simpa using hne)]
    simp [List.countP_eq_length_filter]

/-- Witness for C3 at the demo state holding one `completed` and one
`pending` transaction: processing `[1, 2]` reports count 1 and total 5000
(the count and sum over the single pending transaction). -/
theorem processPayment_frame_and_counts_witness :
    (processPayment demoS4 [1, 2] "bank_transfer" 99 25).2 = some
      { processedCount := demoS4.ledger.countP fun p =>
          decide (p.1 ∈ [1, 2] ∧ p.2.paymentStatus = PaymentStatus.pending)
        totalAmount := ((demoS4.ledger.filter fun p =>
          decide (p.1 ∈ [1, 2] ∧ p.2.paymentStatus = PaymentStatus.pending)).map
            fun p => p.2.calculatedAmount).sum
        currency := "IDR" } :=
  (processPayment_frame_and_counts demoS4 [1, 2] "bank_transfer" 99 25).2 (by decide)

/-- C7: starting from a `pending` transaction with an empty audit trail,
payment initiation followed by the deferred completion leaves an audit
trail of exactly two entries — `payment_initiated` then
`payment_completed` — with non-decreasing timestamps; moreover neither
operation ever removes or reorders previously appended entries of any
transaction (each only appends). -/
theorem auditTrail_two_entries (s : SysState) (i admin1 admin2 : Nat)
    (method : String) (t0 : RoyaltyTxn) (t1 t2 : ℤ)
    (ht : s.ledger.lookup i = some t0)
    (hp : t0.paymentStatus = PaymentStatus.pending)
    (ha : t0.auditTrail = []) (hle : t1 ≤ t2) :
    (((completePayment (processPayment s [i] method admin1 t1).1 [i] admin2 t2).ledger.lookup
        i).map fun t => t.auditTrail.map fun e => (e.action, e.timestamp)) =
      some [("payment_initiated", t1), ("payment_completed", t2)] ∧
    t1 ≤ t2 ∧
    (∀ (u : SysState) (ids : List Nat) (mth : String) (ad : Nat) (n : ℤ)
        (j : Nat) (w : RoyaltyTxn), u.ledger.lookup j = some w →
      ∃ tl, ((processPayment u ids mth ad n).1.ledger.lookup j).map
          RoyaltyTxn.auditTrail = some (w.auditTrail ++ tl)) ∧
    (∀ (u : SysState) (ids : List Nat) (ad : Nat) (n : ℤ)
        (j : Nat) (w : RoyaltyTxn), u.ledger.lookup j = some w →
      ∃ tl, ((completePayment u ids ad n).ledger.lookup j).map
          RoyaltyTxn.auditTrail = some (w.auditTrail ++ tl)) := by
  have hmem : (i, t0) ∈ s.ledger.filter fun p =>
      decide (p.1 ∈ [i] ∧ p.2.paymentStatus = PaymentStatus.pending) :=
    List.mem_filter.mpr ⟨mem_of_lookup ht, by simp [hp]⟩
  have h1 : (processPayment s [i] method admin1 t1).1.ledger.lookup i =
      some (initiateTxnUpdate method admin1 t1 i t0) := by
    unfold processPayment
    dsimp only
    rw [if_neg (by simpa using List.ne_nil_of_mem hmem)]
    rw [lookup_map_entry, ht]
    unfold initiateEntry
    rw [Option.map_some', if_pos ⟨by simp, hp⟩]
  have h2 : (completePayment (processPayment s [i] method admin1 t1).1 [i] admin2
      t2).ledger.lookup i =
      some (completeTxnUpdate admin2 t2 (initiateTxnUpdate method admin1 t1 i t0)) := by
    unfold completePayment
    dsimp only
    rw [lookup_map_entry, h1, Option.map_some']
    unfold completeEntry
    rw [if_pos (by simp)]
  refine ⟨?_, hle, ?_, ?_⟩
  · rw [h2]
    simp [completeTxnUpdate, initiateTxnUpdate, ha]
  · intro u ids mth ad n j w hw
    unfold processPayment
    dsimp only
    split
    · exact ⟨[], by simp [hw]⟩
    · rw [lookup_map_entry, hw, Option.map_some']
      unfold initiateEntry
      split
      · exact ⟨_, rfl⟩
      · exact ⟨[], by simp⟩
  · intro u ids ad n j w hw
    unfold completePayment
    dsimp only
    rw [lookup_map_entry, hw, Option.map_some']
    unfold completeEntry
    split
    · exact ⟨_, rfl⟩
    · exact ⟨[], by simp⟩

/-- Witness for C7 at the demo play: initiating and completing transaction
1 leaves exactly the two expected audit entries with their timestamps. -/
theorem auditTrail_two_entries_witness :
    (((completePayment (processPayment demoS1 [1] "bank_transfer" 99 5).1 [1] 99
        10).ledger.lookup 1).map fun t => t.auditTrail.map fun e =>
          (e.action, e.timestamp)) =
      some [("payment_initiated", 5), ("payment_completed", 10)] :=
  (auditTrail_two_entries demoS1 1 99 99 "bank_transfer" demoTx1 5 10 rfl (by decide)
    (by decide) (by decide)).1

/-- C2 counterexample: a deferred completion signal applied to a
transaction that is no longer `processing` is *not* a no-op.  In the
reachable demo state `demoS5`, transaction 1 is already `completed` (not
`processing`) with two audit entries, and the scheduled completion of the
`[1, 2]` batch still rewrites it, growing its audit trail to three
entries. -/
theorem completePayment_not_noop :
    ((demoS5.ledger.lookup 1).map fun t => t.paymentStatus) =
      some PaymentStatus.completed ∧
    [1, 2] ∈ demoS5.scheduled ∧
    ((demoS5.ledger.lookup 1).map fun t => t.auditTrail.length) = some 2 ∧
    (((completePayment demoS5 [1, 2] 99 30).ledger.lookup 1).map fun t =>
      t.auditTrail.length) = some 3 := by
  refine ⟨by decide, by decide, by decide, by decide⟩

/-- C2 amended: the deferred completion step updates *every* existing
transaction of the captured id list regardless of its current payment
status — setting it `completed`/`reported` with a fresh `reportedToLMK`
timestamp and appending a `payment_completed` audit entry — rather than
acting only on `processing` transactions. -/
theorem completePayment_updates_all_listed (s : SysState) (ids : List Nat)
    (admin : Nat) (now : ℤ) (i : Nat) (t : RoyaltyTxn)
    (hi : i ∈ ids) (ht : s.ledger.lookup i = some t) :
    (completePayment s ids admin now).ledger.lookup i =
      some (completeTxnUpdate admin now t) := by
  unfold completePayment
  dsimp only
  rw [lookup_map_entry, ht, Option.map_some']
  unfold completeEntry
  rw [if_pos hi]

/-- Witness for the amended C2: the scheduled `[1, 2]` completion rewrites
the already-completed transaction 1 of the demo state to its completion
update. -/
theorem completePayment_updates_all_listed_witness :
    (completePayment demoS5 [1, 2] 99 30).ledger.lookup 1 =
      (demoS5.ledger.lookup 1).map (completeTxnUpdate 99 30) := by
  obtain ⟨t, ht⟩ : ∃ t, demoS5.ledger.lookup 1 = some t := ⟨_, rfl⟩
  rw [ht, Option.map_some']
  exact completePayment_updates_all_listed demoS5 [1, 2] 99 30 1 t (by decide) ht


end Cursortest
